import Mathlib

/-
Verification of the lead-submission service in `app.py` (Flask app exposing
`POST /api/lead`). The request handler `lead`, the helpers `_safe` and
`_build_email_body`, and the environment configuration are embedded as pure
Lean functions. Effects are made explicit:
- the parsed JSON body (`request.get_json(silent=True)`) is an `Option JTop`
  input,
- the configured environment variables form an `Env` record,
- the single outbound SendGrid call is an oracle `SendResult` input
  describing what `sg.send(mail)` would do on this request,
- the current time (`_now_iso`) is a `String` input,
- the outcome records the HTTP status, the JSON body fields the code puts in
  the response, and whether the notification attempt (the `try` block
  around the SendGrid send) was entered, together with the subject and body
  it was entered with.
-/

set_option autoImplicit false

namespace InvoiceChaser

/-- A JSON scalar value as it appears as a field of the posted JSON object.
After parsing, JSON `null` is Python `None`, JSON booleans are Python
booleans, JSON integers are Python ints, JSON strings are Python strings.
No claim involves nested arrays/objects as field values, so field values are
modelled as scalars. -/
inductive JVal where
  | null
  | bool (b : Bool)
  | num (n : Int)
  | str (s : String)
deriving DecidableEq, Repr

/-- A top-level parsed JSON document, as returned by
`request.get_json(silent=True)` when parsing succeeds. -/
inductive JTop where
  | scalar (v : JVal)
  | arr (elems : List JVal)
  | obj (fields : List (String × JVal))
deriving DecidableEq, Repr

/-- The payload dictionary: the fields of the posted JSON object. -/
abbrev Payload := List (String × JVal)

/-- Python truthiness of a parsed JSON value (`payload or {}` in the code):
`None`, `False`, `0`, `""`, `[]` and `{}` are falsy, everything else truthy. -/
def pyTruthy : JTop → Bool
  | .scalar .null => false
  | .scalar (.bool b) => b
  | .scalar (.num n) => n != 0
  | .scalar (.str s) => s != ""
  | .arr es => !es.isEmpty
  | .obj fs => !fs.isEmpty

/-- Python `payload.get(k)`: lookup in the dict built from the JSON object.
A duplicated key in JSON source yields the last occurrence in the Python
dict, hence the lookup on the reversed field list. Absent keys give `None`
(here `none`). -/
def dictGet (fields : Payload) (k : String) : Option JVal :=
  (fields.reverse.find? (fun kv => kv.1 == k)).map (fun kv => kv.2)

/-- Python `str()` on the scalar values a JSON field can hold. -/
def pyStr : JVal → String
  | .null => "None"
  | .bool true => "True"
  | .bool false => "False"
  | .num n => toString n
  | .str s => s

/-- The characters Python's `str.strip()` removes (ASCII whitespace). -/
def pyWs (c : Char) : Bool :=
  c == ' ' || c == '\t' || c == '\n' || c == '\r' || c == '\x0b' || c == '\x0c'

/-- Python `str.strip()`: drop leading and trailing whitespace. -/
def pyStrip (s : String) : String :=
  String.mk (((s.data.dropWhile pyWs).reverse.dropWhile pyWs).reverse)

/-- The helper `_safe(v)` from app.py: `None` becomes `""`, any other value becomes
`str(v).strip()`. Fed with `payload.get(k)`, an absent key (Python `None`,
here `none`) and a JSON `null` value (also Python `None`) both give `""`. -/
def _safe : Option JVal → String
  | none => ""
  | some .null => ""
  | some v => pyStrip (pyStr v)

/-- The helper `_build_email_body(payload)` from app.py, with `_now_iso()` passed in as
`now`. The Python expression `_safe(payload.get("submitted_at")) or
_now_iso()` yields `now` exactly when the safe value is the empty string. -/
def _build_email_body (payload : Payload) (now : String) : String :=
  String.intercalate "\n" [
    "New InvoiceChaser lead",
    "----------------------",
    "Submitted at (UTC): " ++
      (if _safe (dictGet payload "submitted_at") = ""
       then now else _safe (dictGet payload "submitted_at")),
    "Source: " ++ _safe (dictGet payload "source"),
    "Page URL: " ++ _safe (dictGet payload "page_url"),
    "",
    "Name: " ++ _safe (dictGet payload "name"),
    "Company: " ++ _safe (dictGet payload "company"),
    "Email: " ++ _safe (dictGet payload "email"),
    "Invoicing system: " ++ _safe (dictGet payload "system"),
    "Invoice volume/month: " ++ _safe (dictGet payload "volume"),
    "",
    "Message:",
    _safe (dictGet payload "message"),
    "",
    "User Agent:",
    _safe (dictGet payload "user_agent")
  ]

/-- The environment configuration read at module load in app.py
(`os.getenv` with default `""`). -/
structure Env where
  SENDGRID_API_KEY : String
  FROM_EMAIL : String
  SUPPORT_EMAIL : String
deriving DecidableEq, Repr

/-- What the single `sg.send(mail)` call would do on this request:
either return a provider response with a status code, or raise an exception
whose string form is `detail` (any exception inside the `try` block is
modelled here). -/
inductive SendResult where
  | resp (statusCode : Nat)
  | exc (detail : String)
deriving DecidableEq, Repr

/-- The JSON body of a response produced by the handler: `empty` is the
literal `""` body of the 204 preflight reply; `json` carries exactly the
fields app.py ever puts into a `jsonify` response on this route. -/
inductive RespBody where
  | empty
  | json (ok : Bool) (error : Option String) (required : Option (List String))
      (statusCode : Option Nat) (detail : Option String) (ts : Option String)
deriving DecidableEq, Repr

/-- Body `ok: False, error: e`. -/
def jsonErr (e : String) : RespBody :=
  .json false (some e) none none none none

/-- Body `ok: False, error: e, required: fields`. -/
def jsonErrRequired (e : String) (fields : List String) : RespBody :=
  .json false (some e) (some fields) none none none

/-- Body `ok: False, error: e, status_code: sc`. -/
def jsonErrStatus (e : String) (sc : Nat) : RespBody :=
  .json false (some e) none (some sc) none none

/-- Body `ok: False, error: e, detail: d`. -/
def jsonErrDetail (e : String) (d : String) : RespBody :=
  .json false (some e) none none (some d) none

/-- Body `ok: True, ts: ts`. -/
def jsonOkTs (ts : String) : RespBody :=
  .json true none none none none (some ts)

/-- Outcome of one request: either a response with a status code, a body,
and a record of whether the SendGrid attempt (the `try` block) was entered
with a given subject and plain-text body, or an unhandled Python exception
(reached only when a truthy non-object JSON body makes `payload.get` raise
`AttributeError`). -/
inductive HandlerOutcome where
  | respond (status : Nat) (body : RespBody) (sent : Option (String × String))
  | unhandled
deriving DecidableEq, Repr

/-- The inbound request as the handler observes it: whether the method is
`OPTIONS`, whether `request.is_json` holds (JSON content type), and the
result of `request.get_json(silent=True)` (`none` when the body does not
parse). -/
structure LeadRequest where
  methodOptions : Bool
  isJson : Bool
  getJson : Option JTop
deriving DecidableEq, Repr

/-- Line 93 of app.py: `payload = request.get_json(silent=True) or {}`.
A failed parse gives Python `None` (falsy), and any falsy parsed value is
replaced by the empty dict `{}`. -/
def payloadOf (req : LeadRequest) : JTop :=
  match req.getJson with
  | none => .obj []
  | some v => if pyTruthy v then v else .obj []

/-- Line 117 of app.py: the f-string building the subject from the local
variables `name` and `email`, which are the `_safe` extractions from the
payload: the text "New lead: ", the name, then the email in parentheses. -/
def leadSubject (payload : Payload) : String :=
  "New lead: " ++ _safe (dictGet payload "name") ++ " (" ++
    _safe (dictGet payload "email") ++ ")"

/-- The `lead()` view function of app.py, line by line:
preflight 204; `_require_json` 400; `payload = request.get_json(silent=True)
or {}`; the three `_safe` extractions and the missing-fields 400; the three
configuration 500s; subject and body construction; the `try` block with the
SendGrid call mapped to 500 / 502 / 200. -/
def lead (env : Env) (req : LeadRequest) (send : SendResult) (now : String) :
    HandlerOutcome :=
  if req.methodOptions then
    .respond 204 .empty none
  else if !req.isJson then
    .respond 400 (jsonErr "Request must be JSON") none
  else
    match payloadOf req with
    | .obj payload =>
      let name := _safe (dictGet payload "name")
      let email := _safe (dictGet payload "email")
      let message := _safe (dictGet payload "message")
      if name = "" ∨ email = "" ∨ message = "" then
        .respond 400
          (jsonErrRequired "Missing required fields" ["name", "email", "message"])
          none
      else if env.SENDGRID_API_KEY = "" then
        .respond 500 (jsonErr "Server missing SENDGRID_API_KEY") none
      else if env.FROM_EMAIL = "" then
        .respond 500 (jsonErr "Server missing FROM_EMAIL") none
      else if env.SUPPORT_EMAIL = "" then
        .respond 500 (jsonErr "Server missing SUPPORT_EMAIL") none
      else
        let subject := leadSubject payload
        let body_text := _build_email_body payload now
        match send with
        | .exc d =>
            .respond 500 (jsonErrDetail "Exception while sending email" d)
              (some (subject, body_text))
        | .resp sc =>
            if sc ≠ 200 ∧ sc ≠ 202 then
              .respond 502 (jsonErrStatus "SendGrid send failed" sc)
                (some (subject, body_text))
            else
              .respond 200 (jsonOkTs now) (some (subject, body_text))
    | _ => .unhandled

/-- A non-OPTIONS request whose content type is JSON and whose body parsed
to the document `t`. -/
def postJson (t : JTop) : LeadRequest :=
  { methodOptions := false, isJson := true, getJson := some t }

/-- HTTP status of an outcome, when one was produced. -/
def statusOf : HandlerOutcome → Option Nat
  | .respond status _ _ => some status
  | .unhandled => none

/-- Whether, and with which (subject, body), the SendGrid attempt was
entered. -/
def sentOf : HandlerOutcome → Option (String × String)
  | .respond _ _ sent => sent
  | .unhandled => none

/-- Subject of the notification attempt, when one was entered. -/
def subjectOf (o : HandlerOutcome) : Option String :=
  (sentOf o).map (fun sb => sb.1)

/-- The handler never appends anywhere: app.py opens no file and keeps no
store, so the only effect a request can have is the SendGrid attempt
recorded in `sentOf`. This predicate says a request path had no effect. -/
def noSideEffects (o : HandlerOutcome) : Prop :=
  sentOf o = none

/-- The fixed 400 body of the missing-fields rejection (lines 100-107). -/
def missingFieldsResponse : HandlerOutcome :=
  .respond 400
    (jsonErrRequired "Missing required fields" ["name", "email", "message"]) none

/-- The keys app.py ever reads from the payload: the three validated fields
and the fields rendered by `_build_email_body`. -/
def recognizedKeys : List String :=
  ["submitted_at", "source", "page_url", "name", "company", "email",
   "system", "volume", "message", "user_agent"]

/-- A string with no leading and no trailing Python whitespace. -/
def noEdgeWs (s : String) : Prop :=
  (∀ c, s.data.head? = some c → pyWs c = false) ∧
  (∀ c, s.data.getLast? = some c → pyWs c = false)

/-- A fully configured environment. -/
def envFull : Env :=
  { SENDGRID_API_KEY := "SG.key"
    FROM_EMAIL := "from@example.com"
    SUPPORT_EMAIL := "support@example.com" }

/-- An environment with every variable unset (the `os.getenv` default). -/
def envUnset : Env :=
  { SENDGRID_API_KEY := "", FROM_EMAIL := "", SUPPORT_EMAIL := "" }

/-- A payload whose email value is non-empty but not of the shape
local-part at domain dot tld. -/
def pBob : Payload :=
  [("name", JVal.str "Bob"), ("email", JVal.str "not-an-email"),
   ("message", JVal.str "hi")]

/-- A complete, well-formed payload that also carries a company. -/
def pAcme : Payload :=
  [("name", JVal.str "Ada"), ("email", JVal.str "a@b.co"),
   ("message", JVal.str "hi"), ("company", JVal.str "Acme")]

/-- The Acme payload without its company field. -/
def pNoCompany : Payload :=
  [("name", JVal.str "Ada"), ("email", JVal.str "a@b.co"),
   ("message", JVal.str "hi")]

/-- The payload of the spec scenario: name plus a `work_email` key. -/
def pAdaWork : Payload :=
  [("name", JVal.str "Ada"), ("work_email", JVal.str "ada@example.com")]

/-- A payload with a present name and message but an absent email key. -/
def pNameOnly : Payload :=
  [("name", JVal.str "Bob"), ("message", JVal.str "hi")]

/-- A payload with a JSON-null email and a padded company value. -/
def pNullEmail : Payload :=
  [("email", JVal.null), ("company", JVal.str " x y ")]

/-- A request rejected by the minimal validation on lines 100-107: its
effective payload is an object one of whose three required fields
normalizes to the empty string. -/
def failsValidation (req : LeadRequest) : Prop :=
  match payloadOf req with
  | .obj p =>
      _safe (dictGet p "name") = "" ∨ _safe (dictGet p "email") = "" ∨
      _safe (dictGet p "message") = ""
  | _ => False

/-- A minimal payload for the formatter-purity witness. -/
def p7 : Payload := [("name", JVal.str "Ada"), ("email", JVal.str "a@b.co")]

/-- Same recognized-field values as `p7`, different order, plus a key the
code never reads. -/
def q7 : Payload :=
  [("email", JVal.str "a@b.co"), ("name", JVal.str "Ada"),
   ("extra_key", JVal.str "zz")]

/-- First element surviving `dropWhile` fails the predicate. -/
theorem dropWhile_head?_false {α : Type} (p : α → Bool) :
    ∀ (l : List α) (c : α), (l.dropWhile p).head? = some c → p c = false := by
  intro l
  induction l with
  | nil => intro c h; simp [List.dropWhile] at h
  | cons a t ih =>
    intro c h
    by_cases hp : p a
    · rw [List.dropWhile_cons, if_pos hp] at h
      exact ih c h
    · rw [List.dropWhile_cons, if_neg hp] at h
      simp only [List.head?_cons, Option.some.injEq] at h
      rw [← h]
      exact Bool.eq_false_iff.mpr hp

/-- Either `dropWhile` empties the list or it preserves the last element. -/
theorem dropWhile_getLast?_eq {α : Type} (p : α → Bool) :
    ∀ (l : List α), l.dropWhile p = [] ∨ (l.dropWhile p).getLast? = l.getLast? := by
  intro l
  induction l with
  | nil => left; rfl
  | cons a t ih =>
    by_cases hp : p a
    · by_cases ht : t.dropWhile p = []
      · left; rw [List.dropWhile_cons, if_pos hp]; exact ht
      · right
        rcases ih with h | h
        · exact absurd h ht
        · rw [List.dropWhile_cons, if_pos hp, h]
          have htne : t ≠ [] := by
            intro he; rw [he] at ht; exact ht rfl
          cases t with
          | nil => exact absurd rfl htne
          | cons b t2 => rw [List.getLast?_cons_cons]
    · right; rw [List.dropWhile_cons, if_neg hp]

/-- Output of `pyStrip` carries no leading and no trailing whitespace. -/
theorem pyStrip_noEdgeWs (s : String) : noEdgeWs (pyStrip s) := by
  constructor
  · intro c hc
    have hdata : (pyStrip s).data =
        (((s.data.dropWhile pyWs).reverse.dropWhile pyWs).reverse) := rfl
    rw [hdata, List.head?_reverse] at hc
    rcases dropWhile_getLast?_eq pyWs (s.data.dropWhile pyWs).reverse with h | h
    · rw [h] at hc; simp at hc
    · rw [h, List.getLast?_reverse] at hc
      exact dropWhile_head?_false pyWs s.data c hc
  · intro c hc
    have hdata : (pyStrip s).data =
        (((s.data.dropWhile pyWs).reverse.dropWhile pyWs).reverse) := rfl
    rw [hdata, List.getLast?_reverse] at hc
    exact dropWhile_head?_false pyWs (s.data.dropWhile pyWs).reverse c hc

/-- The effective payload of a JSON POST carrying an object is that object:
an empty object is falsy and replaced by `\x7b\x7d`, which is the same
object. -/
theorem payloadOf_postJson_obj (payload : Payload) :
    payloadOf (postJson (.obj payload)) = .obj payload := by
  cases payload <;> simp [payloadOf, postJson, pyTruthy]

/-- Reduction of the handler on a JSON POST carrying an object: the
validation check, then the three configuration checks, then the outcome of
the SendGrid attempt. -/
theorem lead_postJson_obj (env : Env) (payload : Payload) (send : SendResult)
    (now : String) :
    lead env (postJson (.obj payload)) send now =
      if _safe (dictGet payload "name") = "" ∨ _safe (dictGet payload "email") = "" ∨
          _safe (dictGet payload "message") = "" then
        missingFieldsResponse
      else if env.SENDGRID_API_KEY = "" then
        .respond 500 (jsonErr "Server missing SENDGRID_API_KEY") none
      else if env.FROM_EMAIL = "" then
        .respond 500 (jsonErr "Server missing FROM_EMAIL") none
      else if env.SUPPORT_EMAIL = "" then
        .respond 500 (jsonErr "Server missing SUPPORT_EMAIL") none
      else
        match send with
        | .exc d =>
            .respond 500 (jsonErrDetail "Exception while sending email" d)
              (some (leadSubject payload, _build_email_body payload now))
        | .resp sc =>
            if sc ≠ 200 ∧ sc ≠ 202 then
              .respond 502 (jsonErrStatus "SendGrid send failed" sc)
                (some (leadSubject payload, _build_email_body payload now))
            else
              .respond 200 (jsonOkTs now)
                (some (leadSubject payload, _build_email_body payload now)) := by
  unfold lead
  rw [payloadOf_postJson_obj]
  rfl

/-- The handler reads the request only through the method flag, the JSON
flag, and the effective payload. -/
theorem lead_fields_eq (env : Env) (req req' : LeadRequest) (send : SendResult)
    (now : String) (h1 : req.methodOptions = req'.methodOptions)
    (h2 : req.isJson = req'.isJson) (h3 : payloadOf req = payloadOf req') :
    lead env req send now = lead env req' send now := by
  unfold lead
  rw [h1, h2, h3]

/-- On a non-OPTIONS JSON request the handler is determined by the
effective payload. -/
theorem lead_congr_payload (env : Env) (req : LeadRequest) (send : SendResult)
    (now : String) (hopt : req.methodOptions = false) (hj : req.isJson = true) :
    lead env req send now =
      match payloadOf req with
      | .obj p => lead env (postJson (.obj p)) send now
      | _ => .unhandled := by
  cases hpv : payloadOf req with
  | scalar v => simp [lead, hopt, hj, hpv]
  | arr es => simp [lead, hopt, hj, hpv]
  | obj p =>
      show lead env req send now = lead env (postJson (.obj p)) send now
      exact lead_fields_eq env req (postJson (.obj p)) send now
        (by rw [hopt]; rfl) (by rw [hj]; rfl)
        (by rw [hpv, payloadOf_postJson_obj])

/-- C1 (counterexample): the submission with name "Bob", email
"not-an-email" and message "hi" — an email with no `@`-separated domain —
is not rejected as a malformed email: with full configuration and an
accepting provider it is accepted end to end with a 200 and the
notification attempt is made. -/
theorem c1_counterexample :
    lead envFull (postJson (.obj pBob)) (.resp 202) "TS" =
      .respond 200 (jsonOkTs "TS")
        (some (leadSubject pBob, _build_email_body pBob "TS")) := by
  rfl

/-- C1 (amended): validation never inspects the email's shape: a JSON
object submission is rejected with the missing-fields 400 exactly when one
of the three required fields (name, email, message) normalizes to the empty
string; any non-empty trimmed email value, well-formed or not, passes. -/
theorem c1_email_validation_is_emptiness_only (env : Env) (payload : Payload)
    (send : SendResult) (now : String) :
    lead env (postJson (.obj payload)) send now = missingFieldsResponse ↔
      (_safe (dictGet payload "name") = "" ∨ _safe (dictGet payload "email") = "" ∨
       _safe (dictGet payload "message") = "") := by
  rw [lead_postJson_obj]
  constructor
  · intro h
    by_contra hno
    rw [if_neg hno] at h
    cases send with
    | exc d =>
        split_ifs at h <;>
          simp [missingFieldsResponse, jsonErr, jsonErrDetail, jsonErrRequired] at h
    | resp sc =>
        by_cases hsc : sc ≠ 200 ∧ sc ≠ 202 <;>
          split_ifs at h <;>
            simp [hsc, missingFieldsResponse, jsonErr, jsonErrStatus, jsonOkTs,
              jsonErrRequired] at h
  · intro h
    rw [if_pos h]

/-- C2 (counterexample): with every configuration variable unset and a body
missing all required fields, the handler returns the validation 400, not
the misconfiguration 500: validation runs before the configuration check. -/
theorem c2_counterexample :
    lead envUnset (postJson (.obj [])) (.resp 202) "T" = missingFieldsResponse := by
  rfl

/-- C2 (amended): the configuration check runs only after validation
passes: with `SENDGRID_API_KEY` unset, a request failing validation gets
the 400 missing-fields response, and a request passing validation gets the
500 naming the missing key, with no notification attempt in either case. -/
theorem c2_config_checked_after_validation (env : Env) (payload : Payload)
    (send : SendResult) (now : String) (hkey : env.SENDGRID_API_KEY = "") :
    lead env (postJson (.obj payload)) send now =
      if _safe (dictGet payload "name") = "" ∨ _safe (dictGet payload "email") = "" ∨
          _safe (dictGet payload "message") = "" then
        missingFieldsResponse
      else
        .respond 500 (jsonErr "Server missing SENDGRID_API_KEY") none := by
  rw [lead_postJson_obj]
  by_cases h : _safe (dictGet payload "name") = "" ∨ _safe (dictGet payload "email") = "" ∨
      _safe (dictGet payload "message") = ""
  · rw [if_pos h, if_pos h]
  · rw [if_neg h, if_neg h, if_pos hkey]

/-- C2 (witness): a validated payload with `SENDGRID_API_KEY` unset yields
the 500 naming the missing key. -/
theorem c2_witness :
    lead envUnset (postJson (.obj pAcme)) (.resp 202) "T" =
      .respond 500 (jsonErr "Server missing SENDGRID_API_KEY") none := by
  rw [c2_config_checked_after_validation envUnset pAcme (.resp 202) "T" rfl]
  rfl

/-- C3: for a validated submission with complete configuration, a raised
exception maps to 500 with `ok:false`, an error string and a detail field;
a provider status other than 200/202 maps to 502 carrying that status; and
an accepting provider maps to 200 with `ok:true` and a timestamp. -/
theorem c3_notifier_outcome_mapping (env : Env) (payload : Payload)
    (send : SendResult) (now : String)
    (h1 : _safe (dictGet payload "name") ≠ "")
    (h2 : _safe (dictGet payload "email") ≠ "")
    (h3 : _safe (dictGet payload "message") ≠ "")
    (hk : env.SENDGRID_API_KEY ≠ "") (hf : env.FROM_EMAIL ≠ "")
    (hs : env.SUPPORT_EMAIL ≠ "") :
    lead env (postJson (.obj payload)) send now =
      match send with
      | .exc d =>
          .respond 500 (jsonErrDetail "Exception while sending email" d)
            (some (leadSubject payload, _build_email_body payload now))
      | .resp sc =>
          if sc = 200 ∨ sc = 202 then
            .respond 200 (jsonOkTs now)
              (some (leadSubject payload, _build_email_body payload now))
          else
            .respond 502 (jsonErrStatus "SendGrid send failed" sc)
              (some (leadSubject payload, _build_email_body payload now)) := by
  rw [lead_postJson_obj, if_neg (by push_neg; exact ⟨h1, h2, h3⟩), if_neg hk,
    if_neg hf, if_neg hs]
  cases send with
  | exc d => rfl
  | resp sc =>
      by_cases hsc : sc = 200 ∨ sc = 202
      · rcases hsc with h | h <;> subst h <;> simp
      · have ha := not_or.mp hsc
        simp [ha.1, ha.2]

/-- C3 (witness): the Acme payload with full configuration and an accepting
provider (202) yields the 200 success response. -/
theorem c3_witness :
    lead envFull (postJson (.obj pAcme)) (.resp 202) "T" =
      .respond 200 (jsonOkTs "T")
        (some (leadSubject pAcme, _build_email_body pAcme "T")) := by
  rw [c3_notifier_outcome_mapping envFull pAcme (.resp 202) "T" (by decide)
    (by decide) (by decide) (by decide) (by decide) (by decide)]
  rfl

/-- C4: a request failing body parsing (non-JSON content type, or an
unparseable or falsy body leaving the payload empty) or failing validation
is answered with a 400, and the notification attempt is never entered; the
code appends to no store anywhere, so no effect at all occurs on that
path. -/
theorem c4_reject_is_terminal (env : Env) (req : LeadRequest)
    (send : SendResult) (now : String) (hopt : req.methodOptions = false)
    (hfail : req.isJson = false ∨ failsValidation req) :
    statusOf (lead env req send now) = some 400 ∧
      noSideEffects (lead env req send now) := by
  by_cases hj : req.isJson = true
  · rcases hfail with hjf | hv
    · rw [hjf] at hj; exact absurd hj (by simp)
    · rw [lead_congr_payload env req send now hopt hj]
      unfold failsValidation at hv
      cases hpv : payloadOf req with
      | scalar v => rw [hpv] at hv; exact hv.elim
      | arr es => rw [hpv] at hv; exact hv.elim
      | obj p =>
          rw [hpv] at hv
          have hv2 : _safe (dictGet p "name") = "" ∨ _safe (dictGet p "email") = "" ∨
              _safe (dictGet p "message") = "" := hv
          show statusOf (lead env (postJson (.obj p)) send now) = some 400 ∧
            noSideEffects (lead env (postJson (.obj p)) send now)
          rw [lead_postJson_obj, if_pos hv2]
          exact ⟨rfl, rfl⟩
  · have hjf : req.isJson = false := by
      cases hb : req.isJson
      · rfl
      · exact absurd hb hj
    constructor <;> simp [lead, hopt, hjf, statusOf, noSideEffects, sentOf, jsonErr]

/-- C4 (witness): a POST without a JSON content type is answered 400 with
no notification attempt. -/
theorem c4_witness :
    statusOf (lead envFull ⟨false, false, none⟩ (.resp 202) "T") = some 400 ∧
      noSideEffects (lead envFull ⟨false, false, none⟩ (.resp 202) "T") :=
  c4_reject_is_terminal envFull ⟨false, false, none⟩ (.resp 202) "T" rfl (Or.inl rfl)

/-- C5 (counterexample): a submission whose only defect is the absent email
key is rejected with the fixed list naming all three required fields —
including name and message, which are present and non-empty — and with the
same generic "Missing required fields" error used for every rejection, so
the response neither enumerates exactly the defective fields nor
distinguishes a missing email from a malformed one. -/
theorem c5_counterexample :
    lead envFull (postJson (.obj pNameOnly)) (.resp 202) "T" = missingFieldsResponse ∧
      _safe (dictGet pNameOnly "name") ≠ "" ∧
      _safe (dictGet pNameOnly "message") ≠ "" := by
  refine ⟨rfl, by decide, by decide⟩

/-- C5 (amended): every validation rejection is one fixed response: status
400, error "Missing required fields", and the full constant list
["name", "email", "message"], independent of which field is defective and
with no missing-versus-malformed distinction for the email. -/
theorem c5_rejection_fixed_list (env : Env) (payload : Payload)
    (send : SendResult) (now : String)
    (h : _safe (dictGet payload "name") = "" ∨ _safe (dictGet payload "email") = "" ∨
        _safe (dictGet payload "message") = "") :
    lead env (postJson (.obj payload)) send now = missingFieldsResponse := by
  rw [lead_postJson_obj, if_pos h]

/-- C5 (witness): the fixed rejection at the payload with a present name
and message but no email key. -/
theorem c5_witness :
    lead envFull (postJson (.obj pNameOnly)) (.resp 203) "T" = missingFieldsResponse :=
  c5_rejection_fixed_list envFull pNameOnly (.resp 203) "T" (Or.inr (Or.inl rfl))

/-- C6 (counterexample): the spec scenario body with name "Ada" and key
`work_email` is not accepted: the code reads the key "email" and also
requires "message", so the handler returns the 400 missing-fields response
instead of 200, and no notification attempt or record append occurs. -/
theorem c6_counterexample :
    lead envFull (postJson (.obj pAdaWork)) (.resp 202) "T" = missingFieldsResponse := by
  rfl

/-- C6 (amended): for the body with name "Ada" and `work_email`
"ada@example.com", under any configuration and any provider behaviour, the
handler returns the 400 missing-fields rejection with no side effect: the
code reads the email from the key "email" and requires a non-empty
"message", and it maintains no local log store at all. -/
theorem c6_work_email_scenario_rejected (env : Env) (send : SendResult)
    (now : String) :
    lead env (postJson (.obj pAdaWork)) send now = missingFieldsResponse ∧
      noSideEffects (lead env (postJson (.obj pAdaWork)) send now) := by
  have hc : _safe (dictGet pAdaWork "name") = "" ∨
      _safe (dictGet pAdaWork "email") = "" ∨
      _safe (dictGet pAdaWork "message") = "" := Or.inr (Or.inl rfl)
  have h : lead env (postJson (.obj pAdaWork)) send now = missingFieldsResponse := by
    rw [lead_postJson_obj, if_pos hc]
  refine ⟨h, ?_⟩
  unfold noSideEffects
  rw [h]
  rfl

/-- C7: the formatter is pure in the payload's recognized fields and the
timestamp: two payloads agreeing on every key the code reads — in any
order, with any unrecognized keys, and in particular with an empty or
absent submitted-at value — produce byte-identical message bodies and
subjects for the same timestamp. -/
theorem c7_format_pure_in_fields (p q : Payload) (now : String)
    (h : ∀ k ∈ recognizedKeys, dictGet p k = dictGet q k) :
    _build_email_body p now = _build_email_body q now ∧
      leadSubject p = leadSubject q := by
  constructor
  · unfold _build_email_body
    rw [h "submitted_at" (by decide), h "source" (by decide),
      h "page_url" (by decide), h "name" (by decide), h "company" (by decide),
      h "email" (by decide), h "system" (by decide), h "volume" (by decide),
      h "message" (by decide), h "user_agent" (by decide)]
  · unfold leadSubject
    rw [h "name" (by decide), h "email" (by decide)]

/-- C7 (witness): two payloads with the same recognized fields, reordered
and with an extra unread key, and no submitted-at value, format
identically. -/
theorem c7_witness :
    _build_email_body p7 "T" = _build_email_body q7 "T" ∧
      leadSubject p7 = leadSubject q7 :=
  c7_format_pure_in_fields p7 q7 "T" (by decide)

/-- C8 (counterexample): with a non-empty company field ("Acme") the
subject is exactly "New lead: Ada (a@b.co)" — identical to the subject of
the same submission without any company — so the subject incorporates the
email, never the company. -/
theorem c8_counterexample :
    subjectOf (lead envFull (postJson (.obj pAcme)) (.resp 202) "T") =
        some "New lead: Ada (a@b.co)" ∧
      subjectOf (lead envFull (postJson (.obj pNoCompany)) (.resp 202) "T") =
        some "New lead: Ada (a@b.co)" ∧
      _safe (dictGet pAcme "company") = "Acme" := by
  exact ⟨rfl, rfl, rfl⟩

/-- C8 (amended): whenever a notification attempt is made, its subject is
the fixed template built from the normalized name and email only — "New
lead: ", the name, then the email in parentheses — regardless of the
company field. -/
theorem c8_subject_name_email_only (env : Env) (payload : Payload)
    (send : SendResult) (now : String)
    (h1 : _safe (dictGet payload "name") ≠ "")
    (h2 : _safe (dictGet payload "email") ≠ "")
    (h3 : _safe (dictGet payload "message") ≠ "")
    (hk : env.SENDGRID_API_KEY ≠ "") (hf : env.FROM_EMAIL ≠ "")
    (hs : env.SUPPORT_EMAIL ≠ "") :
    subjectOf (lead env (postJson (.obj payload)) send now) =
      some (leadSubject payload) := by
  rw [lead_postJson_obj, if_neg (by push_neg; exact ⟨h1, h2, h3⟩), if_neg hk,
    if_neg hf, if_neg hs]
  cases send with
  | exc d => rfl
  | resp sc =>
      by_cases hsc : sc ≠ 200 ∧ sc ≠ 202 <;> simp [hsc, subjectOf, sentOf]

/-- C8 (witness): the subject for the Acme payload is the name-and-email
template. -/
theorem c8_witness :
    subjectOf (lead envFull (postJson (.obj pAcme)) (.resp 202) "T") =
      some (leadSubject pAcme) :=
  c8_subject_name_email_only envFull pAcme (.resp 202) "T" (by decide)
    (by decide) (by decide) (by decide) (by decide) (by decide)

/-- C9: field normalization: a key absent from the payload normalizes to
the empty string, a JSON-null value normalizes to the empty string, any
present non-null value normalizes to its string form stripped, and the
normalized value never carries leading or trailing whitespace. -/
theorem c9_field_normalization (p : Payload) (k : String) :
    ((∀ kv ∈ p, kv.1 ≠ k) → _safe (dictGet p k) = "") ∧
      (dictGet p k = some JVal.null → _safe (dictGet p k) = "") ∧
      (∀ v, dictGet p k = some v → v ≠ JVal.null →
        _safe (dictGet p k) = pyStrip (pyStr v)) ∧
      noEdgeWs (_safe (dictGet p k)) := by
  refine ⟨?_, ?_, ?_, ?_⟩
  · intro habs
    have hnone : dictGet p k = none := by
      unfold dictGet
      rw [List.find?_eq_none.mpr ?_]
      · rfl
      · intro kv hm
        have := habs kv (List.mem_reverse.mp hm)
        simpa using this
    rw [hnone]
    rfl
  · intro hnull
    rw [hnull]
    rfl
  · intro v hv hvne
    rw [hv]
    cases v with
    | null => exact absurd rfl hvne
    | bool b => rfl
    | num n => rfl
    | str s => rfl
  · cases hdg : dictGet p k with
    | none => exact ⟨by intro c hc; simp [_safe] at hc, by intro c hc; simp [_safe] at hc⟩
    | some v =>
        cases v with
        | null =>
            exact ⟨by intro c hc; simp [_safe] at hc, by intro c hc; simp [_safe] at hc⟩
        | bool b => exact pyStrip_noEdgeWs (pyStr (.bool b))
        | num n => exact pyStrip_noEdgeWs (pyStr (.num n))
        | str s => exact pyStrip_noEdgeWs s

/-- C9 (witness): the absent key "name" gives "", the JSON-null email gives
"", and the padded company value " x y " gives its stripped form. -/
theorem c9_witness :
    _safe (dictGet pNullEmail "name") = "" ∧
      _safe (dictGet pNullEmail "email") = "" ∧
      _safe (dictGet pNullEmail "company") = "x y" := by
  refine ⟨(c9_field_normalization pNullEmail "name").1 (by decide),
    (c9_field_normalization pNullEmail "email").2.1 (by decide), ?_⟩
  rw [(c9_field_normalization pNullEmail "company").2.2.1 (JVal.str " x y ")
    (by decide) (by decide)]
  decide

/-- C10: a JSON request whose body parses to any falsy JSON value — null,
false, zero, the empty string, the empty array, or the empty object — is
treated as the empty payload and answered with the structured 400
missing-fields response, with no notification attempt and no unhandled
error. -/
theorem c10_falsy_body_treated_as_empty (env : Env) (send : SendResult)
    (now : String) (t : JTop) (h : pyTruthy t = false) :
    lead env (postJson t) send now = missingFieldsResponse := by
  have hpv : payloadOf (postJson t) = .obj [] := by
    simp [payloadOf, postJson, h]
  rw [lead_congr_payload env (postJson t) send now rfl rfl, hpv]
  show lead env (postJson (.obj [])) send now = missingFieldsResponse
  have hc : _safe (dictGet ([] : Payload) "name") = "" ∨
      _safe (dictGet ([] : Payload) "email") = "" ∨
      _safe (dictGet ([] : Payload) "message") = "" := Or.inl rfl
  rw [lead_postJson_obj, if_pos hc]

/-- C10 (witness): a body parsing to JSON null gives the 400
missing-fields response. -/
theorem c10_witness :
    lead envFull (postJson (.scalar .null)) (.resp 202) "T" = missingFieldsResponse :=
  c10_falsy_body_treated_as_empty envFull (.resp 202) "T" (.scalar .null) rfl

end InvoiceChaser
